import Mathlib

/-!
Shallow embedding of the `weather-agent` repository (Python) in Lean 4.

Conventions used throughout:
* Python floats are modelled as exact rationals (`ℚ`); the `"%.1f"` format
  specifier is modelled as exact round-half-even at one decimal digit of the
  rational value.
* Python exceptions are modelled by the `PyError` inductive; fallible code
  returns `Except PyError α`.  Each Python exception class is a distinct
  constructor, so "distinct exception types" is "distinct constructors".
* JSON payloads from the provider are modelled by structures mirroring the
  fields the code reads.  Fields whose absence the code can actually observe
  (optional `wind`, optional `city`, optional `list`, the `weather` array that
  is indexed with `[0]`) are `Option`/`List`; fields the code reads
  unconditionally (`dt`, `main.temp`, ...) are plain fields.
* `datetime.fromtimestamp` converts an epoch second count to local civil time;
  the local-timezone offset (in seconds east of UTC) is an explicit `tz`
  parameter.  The proleptic-Gregorian conversion from day numbers to
  year/month/day is implemented below (`civilFromDays`).
* Environment dependence of `format_forecast` (timezone, availability of the
  `es_ES.UTF-8` locale) is gathered in the explicit `FmtEnv` parameter.
-/

/-- Python exception classes that appear in the code paths under study,
one constructor per class. -/
inductive PyError where
  | validationError (msg : String)
  | weatherAPIError (status : Int) (msg : String)
  | connectionError (msg : String)
  | timeoutError (msg : String)
  | nameError (name : String)
  | indexError
  | keyError (key : String)
deriving DecidableEq

/-- Coarse classification of a `PyError` by its Python exception class
(the constructor), used to compare failure *types*. -/
def PyError.kind : PyError → String
  | .validationError _ => "ValidationError"
  | .weatherAPIError _ _ => "WeatherAPIError"
  | .connectionError _ => "ConnectionError"
  | .timeoutError _ => "TimeoutError"
  | .nameError _ => "NameError"
  | .indexError => "IndexError"
  | .keyError _ => "KeyError"

/-- Round a rational to the nearest integer, ties to even
(the rounding mode of Python float formatting, applied here to the exact
rational value). -/
def roundHalfEven (q : ℚ) : ℤ :=
  let f := ⌊q⌋
  let r := q - (f : ℚ)
  if r < 1/2 then f
  else if 1/2 < r then f + 1
  else if f % 2 = 0 then f else f + 1

/-- Model of Python `f"{x:.1f}"`: one decimal digit, round half to even. -/
def fmt1 (q : ℚ) : String :=
  let n := roundHalfEven (q * 10)
  let sign := if n < 0 then "-" else ""
  let m := n.natAbs
  sign ++ toString (m / 10) ++ "." ++ toString (m % 10)

/-- Zero-pad a (nonnegative) integer to two digits, as `%d`/`%m` do. -/
def pad2 (n : ℤ) : String :=
  if n < 10 then "0" ++ toString n else toString n

/-- Convert a count of days since 1970-01-01 to (year, month, day) in the
proleptic Gregorian calendar (the civil calendar used by
`datetime.fromtimestamp`). -/
def civilFromDays (z0 : ℤ) : ℤ × ℤ × ℤ :=
  let z := z0 + 719468
  let era := z / 146097
  let doe := z % 146097
  let yoe := (doe - doe / 1460 + doe / 36524 - doe / 146096) / 365
  let doy := doe - (365 * yoe + yoe / 4 - yoe / 100)
  let mp := (5 * doy + 2) / 153
  let d := doy - (153 * mp + 2) / 5 + 1
  let m := if mp < 10 then mp + 3 else mp - 9
  (yoe + era * 400 + (if m ≤ 2 then 1 else 0), m, d)

/-- Model of `datetime.fromtimestamp(dt).strftime('%Y-%m-%d')` for a local
timezone `tz` seconds east of UTC. -/
def dateKey (tz dt : ℤ) : String :=
  let days := (dt + tz) / 86400
  let ymd := civilFromDays days
  toString ymd.1 ++ "-" ++ pad2 ymd.2.1 ++ "-" ++ pad2 ymd.2.2

/-- The whitespace set of Python `str.strip()` (ASCII part; the payloads at
hand contain no exotic Unicode spaces). -/
def isPySpace (c : Char) : Bool :=
  c = ' ' ∨ c = '\t' ∨ c = '\n' ∨ c = '\r' ∨ c = '\x0b' ∨ c = '\x0c'

/-- Python's `not city or len(city.strip()) == 0` for a string: true exactly
when every character is whitespace (the empty string included). -/
def strippedEmpty (s : String) : Bool :=
  s.data.all isPySpace

/-- Lexicographic comparison of character lists (by code point), the order
Python string comparison uses for the all-ASCII date keys at hand. -/
def charsLe : List Char → List Char → Bool
  | [], _ => true
  | _ :: _, [] => false
  | c :: cs, d :: ds => if c < d then true else if d < c then false else charsLe cs ds

/-- String comparison via `charsLe`. -/
def strLe (a b : String) : Bool := charsLe a.data b.data

/-- Insert into a sorted list after every element that compares `le` to the
new one, so that the overall sort is stable like Python's `sorted`. -/
def insertLe {α : Type} (le : α → α → Bool) (x : α) : List α → List α
  | [] => [x]
  | y :: ys => if le y x then y :: insertLe le x ys else x :: y :: ys

/-- Stable insertion sort, modelling Python's `sorted(..., key=...)`. -/
def sortLe {α : Type} (le : α → α → Bool) (l : List α) : List α :=
  l.foldl (fun acc x => insertLe le x acc) []

/-- ASCII lower-casing of a string, Python `str.lower()` on the ASCII
category names at hand. -/
def pyLower (s : String) : String :=
  String.mk (s.data.map Char.toLower)

/-- One entry of a point's `weather` array: coarse category and free text. -/
structure WCond where
  main : String
  description : String
deriving DecidableEq

/-- The `main` sub-object of a forecast point. -/
structure MainData where
  temp : ℚ
  temp_min : ℚ
  temp_max : ℚ
  humidity : ℤ
deriving DecidableEq

/-- The optional `wind` sub-object of a forecast point; `speed` itself is
read with a `'N/A'` default. -/
structure Wind where
  speed : Option ℚ
deriving DecidableEq

/-- One timestamped point of the provider's forecast `list`. -/
structure ForecastItem where
  dt : ℤ
  main : MainData
  weather : List WCond
  wind : Option Wind
deriving DecidableEq

/-- The `city` metadata object of a forecast payload. -/
structure CityInfo where
  name : Option String
  country : Option String
deriving DecidableEq

/-- A raw forecast payload as the code reads it: optional `city` metadata and
an optional `list` of points. -/
structure ForecastData where
  city : Option CityInfo
  list : Option (List ForecastItem)
deriving DecidableEq

/-- Response of the (mock) transport for one request: HTTP status, optional
`message` field of the JSON body, and the payload returned on success. -/
structure ApiResponse where
  status : ℤ
  message : Option String
  payload : ForecastData

/-- A transport maps (endpoint, query parameters) to a response; it stands for
the single `session.get` an API call issues. -/
def Transport := String → List (String × String) → ApiResponse

/-- Embedding of `_make_api_call` (tools.py).  Returns the result together
with the number of HTTP requests actually issued (0 or 1), so that
"fails before any network call" is expressible.  `apiKey` is
`os.getenv('WEATHER_API_KEY')`, hence optional; Python's `if not
WEATHER_API_KEY` is true for both `None` and `""`. -/
def _make_api_call (apiKey : Option String) (lang : String) (transport : Transport)
    (endpoint : String) (params : List (String × String)) :
    Except PyError ForecastData × Nat :=
  match apiKey with
  | none => (.error (.weatherAPIError 401 "API key not configured"), 0)
  | some key =>
    if key = "" then (.error (.weatherAPIError 401 "API key not configured"), 0)
    else
      let fullParams := params ++ [("appid", key), ("lang", lang)]
      let r := transport endpoint fullParams
      if r.status ≠ 200 then
        (.error (.weatherAPIError r.status (r.message.getD "Unknown error")), 1)
      else
        (.ok r.payload, 1)

/-- Embedding of `get_weather` (tools.py): city validation, then the
`weather` endpoint call. -/
def get_weather (apiKey : Option String) (lang : String) (transport : Transport)
    (city : String) : Except PyError ForecastData × Nat :=
  if strippedEmpty city then
    (.error (.validationError "City name must be a non-empty string"), 0)
  else
    _make_api_call apiKey lang transport "weather" [("q", city)]

/-- Embedding of `get_forecast` (tools.py): city validation, days-range
validation, then the `forecast` endpoint call with `cnt = days * 8`. -/
def get_forecast (apiKey : Option String) (lang : String) (transport : Transport)
    (city : String) (days : ℤ) : Except PyError ForecastData × Nat :=
  if strippedEmpty city then
    (.error (.validationError "City name must be a non-empty string"), 0)
  else if days < 1 ∨ 5 < days then
    (.error (.validationError "Days must be an integer between 1 and 5"), 0)
  else
    _make_api_call apiKey lang transport "forecast"
      [("q", city), ("cnt", toString (days * 8))]

/-- Result dictionary of `kelvin_to_celsius`. -/
structure ConversionResult where
  kelvin : ℚ
  celsius : ℚ
  formatted : String
deriving DecidableEq

/-- Embedding of `kelvin_to_celsius` (tools.py): reject below absolute zero,
otherwise return the Kelvin value, the exact offset conversion, and the
one-decimal display string. -/
def kelvin_to_celsius (temperature : ℚ) : Except PyError ConversionResult :=
  if temperature < 0 then
    .error (.validationError "Temperature cannot be below absolute zero (0K)")
  else
    let celsius := temperature - 273.15
    .ok { kelvin := temperature, celsius := celsius, formatted := fmt1 celsius ++ "°C" }

/-- Embedding of `extract_temperatures` (tools.py): `[]` when the payload has
no `list` key, otherwise the `main.temp` of every point in order. -/
def extract_temperatures (data : ForecastData) : List ℚ :=
  match data.list with
  | none => []
  | some l => l.map (fun item => item.main.temp)

/-- Embedding of `k_to_c` (tools.py): the constant-offset conversion. -/
def k_to_c (temp : ℚ) : ℚ := temp - 273.15

/-- Embedding of `average` (tools.py): 0 on the empty list, else the sum
(computed by a left fold, as `reduce` does) divided by the length. -/
def average (values : List ℚ) : ℚ :=
  match values with
  | [] => 0
  | _ => values.foldl (· + ·) 0 / values.length

/-- Embedding of `calculate_changes` (tools.py): a map over the index range,
`temps[i] - temps[i-1]` for positive `i` and 0 at index 0. -/
def calculate_changes (temps : List ℚ) : List ℚ :=
  (List.range temps.length).map
    (fun i => if 0 < i then temps.getD i 0 - temps.getD (i - 1) 0 else 0)

/-- The condition category of a point, `item['weather'][0]['main']`: an
`IndexError` when the `weather` array is empty. -/
def condOf (item : ForecastItem) : Except PyError String :=
  match item.weather with
  | [] => .error .indexError
  | w :: _ => .ok w.main

/-- One step of the `reduce` inside `condition_frequency`: Python's
`{**acc, condition: acc.get(condition, 0) + 1}` keeps an existing key at its
original position with an updated count, and appends an unseen key with
count 1. -/
def countUpdate (acc : List (String × Nat)) (condition : String) : List (String × Nat) :=
  if acc.any (fun e => e.1 = condition) then
    acc.map (fun e => if e.1 = condition then (e.1, e.2 + 1) else e)
  else
    acc ++ [(condition, 1)]

/-- Embedding of `condition_frequency` (tools.py): the insertion-ordered
frequency dictionary of the points' condition categories; `{}` when the
payload has no `list` key.  Reading a category can raise (empty `weather`
array), hence the `Except`. -/
def condition_frequency (data : ForecastData) : Except PyError (List (String × Nat)) :=
  match data.list with
  | none => .ok []
  | some l => do
    let conditions ← l.mapM condOf
    return conditions.foldl countUpdate []

/-- Embedding of `dominant_condition` (tools.py): `("Unknown", 0)` on the
empty mapping, otherwise `max(items, key=count)`, which keeps the
first-encountered maximum on ties. -/
def dominant_condition (condition_counts : List (String × Nat)) : String × Nat :=
  match condition_counts with
  | [] => ("Unknown", 0)
  | c :: rest => rest.foldl (fun best x => if best.2 < x.2 then x else best) c

/-- Embedding of `categorize_trend` (tools.py): "stable" when no changes, or
when at most 20% of the changes exceed 1 in absolute value; otherwise
"warming"/"cooling" by the sign of the summed changes. -/
def categorize_trend (changes : List ℚ) : String :=
  match changes with
  | [] => "stable"
  | _ =>
    let significant_changes := changes.filter (fun change => 1 < |change|)
    let trend_sum := changes.foldl (· + ·) 0
    if (significant_changes.length : ℚ) ≤ (changes.length : ℚ) * 0.2 then "stable"
    else if 0 < trend_sum then "warming"
    else "cooling"

/-- One step of the `reduce` that builds `days_data` in `analyze_data`:
bucket a point under its local calendar date, keeping first-seen bucket
order (dict-unpacking update keeps an existing key's position and appends a
new key). -/
def bucketAdd (tz : ℤ) (acc : List (String × List ForecastItem)) (item : ForecastItem) :
    List (String × List ForecastItem) :=
  if acc.any (fun e => e.1 = dateKey tz item.dt) then
    acc.map (fun e => if e.1 = dateKey tz item.dt then (e.1, e.2 ++ [item]) else e)
  else
    acc ++ [(dateKey tz item.dt, [item])]

/-- The `days_data` dictionary of `analyze_data`: all points bucketed by
local calendar date in first-seen order. -/
def days_data (tz : ℤ) (l : List ForecastItem) : List (String × List ForecastItem) :=
  l.foldl (bucketAdd tz) []

/-- One entry of `daily_averages`: a date key and that bucket's average
temperature (of the raw Kelvin `main.temp` values — the code applies no
conversion here). -/
structure DailyAvg where
  date : String
  avg_temp : ℚ
deriving DecidableEq

/-- The Celsius value whose one-decimal rendering `analyze_data` stores under
`average_temp`: the list average is taken in Kelvin and converted once. -/
def avgTempCelsius (data : ForecastData) : ℚ :=
  k_to_c (average (extract_temperatures data))

/-- The Trend Report dictionary assembled by `analyze_data`, field for field. -/
structure TrendReport where
  city : String
  country : String
  average_temp : String
  min_temp : String
  max_temp : String
  temp_range : String
  trend : String
  dominant_condition : String
  condition_frequency : List (String × Nat)
  daily_averages : List DailyAvg
  data_points : Nat
  analysis_timestamp : String
deriving DecidableEq

/-- Embedding of `analyze_data` (the closure inside `analyze_weather_trends`,
tools.py).  `tz` is the local timezone used by `datetime.fromtimestamp`,
`city` the argument captured for the metadata fallback, `nowIso` the
`datetime.now().isoformat()` reading.  The only failure point is reading a
point's condition category. -/
def analyze_data (tz : ℤ) (city : String) (nowIso : String) (data : ForecastData) :
    Except PyError TrendReport := do
  let temps := extract_temperatures data
  let temp_changes := calculate_changes temps
  let conditions ← condition_frequency data
  let main_condition := (dominant_condition conditions).1
  let celsius_temps := temps.map k_to_c
  let min_temp := match celsius_temps with
    | [] => 0
    | c :: rest => rest.foldl min c
  let max_temp := match celsius_temps with
    | [] => 0
    | c :: rest => rest.foldl max c
  let temp_range := match celsius_temps with
    | [] => 0
    | _ => max_temp - min_temp
  let daily_averages := match data.list with
    | none => []
    | some l =>
      (days_data tz l).map (fun day_items =>
        { date := day_items.1,
          avg_temp := average (day_items.2.map (fun item => item.main.temp)) })
  return {
    city := (data.city.bind (fun c => c.name)).getD city,
    country := (data.city.bind (fun c => c.country)).getD "",
    average_temp := fmt1 (avgTempCelsius data) ++ "°C",
    min_temp := fmt1 min_temp ++ "°C",
    max_temp := fmt1 max_temp ++ "°C",
    temp_range := fmt1 temp_range ++ "°C",
    trend := categorize_trend temp_changes,
    dominant_condition := main_condition,
    condition_frequency := conditions,
    daily_averages := daily_averages,
    data_points := temps.length,
    analysis_timestamp := nowIso }

/-- Embedding of `analyze_weather_trends` (tools.py): parameter validation,
the forecast fetch, then `analyze_data`, with the issued-request count
threaded through. -/
def analyze_weather_trends (apiKey : Option String) (lang : String) (transport : Transport)
    (tz : ℤ) (nowIso : String) (city : String) (days : ℤ) :
    Except PyError TrendReport × Nat :=
  if strippedEmpty city then
    (.error (.validationError "City name must be a non-empty string"), 0)
  else if days < 1 ∨ 5 < days then
    (.error (.validationError "Days must be an integer between 1 and 5"), 0)
  else
    match get_forecast apiKey lang transport city days with
    | (.error e, n) => (.error e, n)
    | (.ok data, n) => (analyze_data tz city nowIso data, n)

/-- English full month names, `%B`. -/
def monthEn : List String :=
  ["January", "February", "March", "April", "May", "June", "July",
   "August", "September", "October", "November", "December"]

/-- Spanish full month names as the `es_ES` locale renders `%B`. -/
def monthEs : List String :=
  ["enero", "febrero", "marzo", "abril", "mayo", "junio", "julio",
   "agosto", "septiembre", "octubre", "noviembre", "diciembre"]

/-- English full weekday names, `%A`, Monday-first. -/
def weekdayEn : List String :=
  ["Monday", "Tuesday", "Wednesday", "Thursday", "Friday", "Saturday", "Sunday"]

/-- Spanish full weekday names as the `es_ES` locale renders `%A`, Monday-first. -/
def weekdayEs : List String :=
  ["lunes", "martes", "miércoles", "jueves", "viernes", "sábado", "domingo"]

/-- Model of Python `str.capitalize()`: first character upper-cased, the rest
lower-cased (ASCII case mapping, like `Char.toUpper`/`Char.toLower`). -/
def pyCapitalize (s : String) : String :=
  match s.data with
  | [] => ""
  | c :: rest => String.mk (c.toUpper :: rest.map Char.toLower)

/-- Environment inputs of `format_forecast` that Python reads ambiently: the
local timezone offset (seconds east of UTC) used by
`datetime.fromtimestamp`, and whether the `es_ES.UTF-8` locale is
installed (the `locale.setlocale` try succeeds). -/
structure FmtEnv where
  tz : ℤ
  esLocale : Bool

/-- Model of the representative-day heading: the Spanish
`'%A %d de %B'` rendering capitalized when the `es_ES` locale is available,
else the default-locale `'%A, %d %B'` rendering. -/
def fmtDate (env : FmtEnv) (dt : ℤ) : String :=
  let days := (dt + env.tz) / 86400
  let ymd := civilFromDays days
  let wd := ((days + 3) % 7).toNat
  let dayStr := pad2 ymd.2.2
  let monthIdx := (ymd.2.1 - 1).toNat
  if env.esLocale then
    pyCapitalize (weekdayEs.getD wd "" ++ " " ++ dayStr ++ " de " ++ monthEs.getD monthIdx "")
  else
    weekdayEn.getD wd "" ++ ", " ++ dayStr ++ " " ++ monthEn.getD monthIdx ""

/-- Model of Python `str()` of a float that carries an exact decimal value:
the shortest exact decimal expansion, with at least one fractional digit.
(Used only for the wind-speed interpolation, which has no format spec.) -/
def showQFloat (q : ℚ) : String :=
  match (List.range 18).find? (fun k => (q * 10 ^ k).den = 1) with
  | none => toString q
  | some k =>
    let n := (q * 10 ^ k).num
    let sign := if n < 0 then "-" else ""
    let m := n.natAbs
    if k = 0 then sign ++ toString m ++ ".0"
    else
      let fracStr := toString (m % 10 ^ k)
      let padded := String.mk (List.replicate (k - fracStr.length) '0') ++ fracStr
      sign ++ toString (m / 10 ^ k) ++ "." ++ padded

/-- The wind-speed display: `best.get('wind', {}).get('speed', 'N/A')`
interpolated into the line. -/
def windSpeedStr (item : ForecastItem) : String :=
  match item.wind with
  | none => "N/A"
  | some w =>
    match w.speed with
    | none => "N/A"
    | some s => showQFloat s

/-- The icon lookup of `format_forecast`: keyed by the lower-cased condition
category, with a default icon. -/
def weatherIcon (main : String) : String :=
  let m := pyLower main
  if m = "clear" then "☀️"
  else if m = "clouds" then "☁️"
  else if m = "rain" then "🌧️"
  else if m = "snow" then "❄️"
  else if m = "thunderstorm" then "⛈️"
  else if m = "drizzle" then "🌦️"
  else if m = "mist" then "🌫️"
  else "🌤️"

/-- Model of the Python slice `l[:days]` for an `int` bound: nonnegative
bounds truncate from the front, negative bounds drop from the end. -/
def pySlice {α : Type} (n : ℤ) (l : List α) : List α :=
  if 0 ≤ n then l.take n.toNat else l.take (l.length - (-n).toNat)

/-- The timestamp of the bucket's first reading moved to 12:00 local:
`day_data['date'].replace(hour=12, minute=0).timestamp()`.  `replace` keeps
the seconds component. -/
def noonTimestamp (tz dt : ℤ) : ℤ :=
  let localSecs := dt + tz
  (localSecs / 86400) * 86400 + 12 * 3600 + localSecs % 60 - tz

/-- The representative reading of a day bucket: `min(forecasts, key=distance
to local noon)`; Python's `min` keeps the first minimum on ties. -/
def bestForecast (tz : ℤ) (f0 : ForecastItem) (rest : List ForecastItem) : ForecastItem :=
  let noonTs := noonTimestamp tz f0.dt
  rest.foldl
    (fun best x =>
      if (x.dt - noonTs).natAbs < (best.dt - noonTs).natAbs then x else best)
    f0

/-- One rendered day block of the forecast report (the `forecast_line`
string-building of `format_forecast`); fails with `IndexError` when the
reading's `weather` array is empty. -/
def forecastLine (env : FmtEnv) (best : ForecastItem) : Except PyError String := do
  let date_formatted := fmtDate env best.dt
  let temp := best.main.temp
  let temp_min := best.main.temp_min
  let temp_max := best.main.temp_max
  let w0 ← match best.weather with
    | [] => Except.error PyError.indexError
    | w :: _ => Except.ok w
  let description := pyCapitalize w0.description
  let humidity := best.main.humidity
  let wind_speed := windSpeedStr best
  let icon := weatherIcon w0.main
  return "📅 *" ++ date_formatted ++ "* " ++ icon ++ "\n   " ++ description ++
    "\n   🌡 " ++ fmt1 temp ++ "°C (Máx: " ++ fmt1 temp_max ++ "°C • Mín: " ++
    fmt1 temp_min ++ "°C)\n   💧 Humedad: " ++ toString humidity ++
    "% • 💨 Viento: " ++ wind_speed ++ " m/s\n"

/-- The body of `format_forecast` (utils.py): everything inside the outer
`try`.  Mirrors the source statement for statement; the per-item
`except (KeyError, ValueError)` of the bucketing loop cannot fire here
because `dt` is a structural field of the embedded point type. -/
def format_forecast_body (env : FmtEnv) (forecast_data : ForecastData) (days : ℤ) :
    Except PyError String := do
  let city := (forecast_data.city.bind (fun c => c.name)).getD "Ubicación desconocida"
  let country := (forecast_data.city.bind (fun c => c.country)).getD ""
  let location := if country ≠ "" then city ++ ", " ++ country else city
  let forecast_list := forecast_data.list.getD []
  if forecast_list = [] then
    return "No se encontraron datos de pronóstico para " ++ location
  let daily_forecasts := days_data env.tz forecast_list
  let sorted_days := pySlice days (sortLe (fun a b => strLe a.1 b.1) daily_forecasts)
  let lineOpts ← sorted_days.mapM (fun day =>
    match day.2 with
    | [] => Except.ok Option.none
    | f0 :: rest => do
      let line ← forecastLine env (bestForecast env.tz f0 rest)
      Except.ok (Option.some line))
  let header := "🌤 *Pronóstico para " ++ location ++ "* (próximos " ++
    toString sorted_days.length ++ " días):\n"
  return String.intercalate "\n" (header :: lineOpts.filterMap id)

/-- The fixed user-facing error string of `format_forecast`'s outer `except`
clause. -/
def formatErrorString : String :=
  "❌ Error al formatear el pronóstico. Por favor, inténtalo de nuevo más tarde."

/-- Embedding of `format_forecast` (utils.py).  The outer `except Exception`
clause first evaluates `logger.error(...)`, but `utils.py` never imports or
defines `logger`, so looking the name up raises `NameError` — the handler
never reaches its `return` of `formatErrorString`, and the `NameError`
propagates to the caller. -/
def format_forecast (env : FmtEnv) (forecast_data : ForecastData) (days : ℤ) :
    Except PyError String :=
  match format_forecast_body env forecast_data days with
  | .ok s => .ok s
  | .error _ => .error (.nameError "logger")

/-- A well-behaved mock transport: always HTTP 200 with an empty payload.
Used to witness that validation failures issue zero requests. -/
def okTransport : Transport := fun _ _ => { status := 200, message := none, payload := ⟨none, none⟩ }

/-- A mock transport that rejects every request with HTTP 404 and
`{"message": "city not found"}`, the provider-rejection shape. -/
def t404 : Transport := fun _ _ => { status := 404, message := some "city not found", payload := ⟨none, none⟩ }

/-- A forecast payload whose single point has an empty `weather` array: the
formatter body raises `IndexError` at `best_forecast['weather'][0]`. -/
def failingForecast : ForecastData :=
  { city := some { name := some "Testville", country := none },
    list := some [{ dt := 0,
                    main := { temp := 300, temp_min := 299, temp_max := 301, humidity := 50 },
                    weather := [],
                    wind := none }] }

/-- A well-formed two-point sample payload (two different days). -/
def sampleForecast : ForecastData :=
  { city := some { name := some "London", country := some "GB" },
    list := some
      [{ dt := 1760227200,
         main := { temp := 285.5, temp_min := 284, temp_max := 287, humidity := 60 },
         weather := [{ main := "Rain", description := "light rain" }],
         wind := some { speed := some 4.09 } },
       { dt := 1760313600,
         main := { temp := 288, temp_min := 286, temp_max := 290, humidity := 55 },
         weather := [{ main := "Clear", description := "clear sky" }],
         wind := none }] }

/-- A forecast payload with an empty point list. -/
def emptySeries : ForecastData := { city := none, list := some [] }

/-- The delta list exactly as claim C5 words it: `delta[0] = 0`,
`delta[i] = temp[i] - temp[i-1]`; empty for an empty sequence. -/
def specDeltas (temps : List ℚ) : List ℚ :=
  match temps with
  | [] => []
  | _ :: ts => 0 :: List.zipWith (fun a b => a - b) ts temps

/-- The trend label exactly as claim C5 words it: `significant` deltas are
those of absolute value above 1; "stable" when they are at most 20% of the
deltas, otherwise "warming"/"cooling" by the sign of the delta sum; an
empty sequence is "stable". -/
def specTrend (temps : List ℚ) : String :=
  let deltas := specDeltas temps
  let significant := deltas.countP (fun d => 1 < |d|)
  let total := deltas.sum
  if deltas = [] then "stable"
  else if (significant : ℚ) ≤ 0.2 * deltas.length then "stable"
  else if 0 < total then "warming"
  else "cooling"

/-- Date keys of a point list in first-seen order (the claim-C4 reading of
"bucketed by calendar date preserving first-seen bucket order"). -/
def firstSeenKeys (tz : ℤ) (l : List ForecastItem) : List String :=
  l.foldl (fun ks it => if dateKey tz it.dt ∈ ks then ks else ks ++ [dateKey tz it.dt]) []

/-- The daily averages described independently of the fold that builds them:
one entry per first-seen date key, whose value is the arithmetic mean of
the raw `main.temp` values of the points falling on that date. -/
def specDailyAvgs (tz : ℤ) (l : List ForecastItem) : List DailyAvg :=
  (firstSeenKeys tz l).map (fun k =>
    { date := k,
      avg_temp := average ((l.filter (fun it => dateKey tz it.dt = k)).map
        (fun it => it.main.temp)) })

/-- Total of the counts of a frequency mapping. -/
def sumCounts (l : List (String × Nat)) : Nat :=
  (l.map (fun e => e.2)).sum

/-- The condition category of a point whose `weather` array is known
nonempty (dummy on the impossible empty case). -/
def condHead (item : ForecastItem) : String :=
  match item.weather with
  | [] => ""
  | w :: _ => w.main

/-- A single forecast point with a condition category, list form. -/
def singleClearList : List ForecastItem :=
  [{ dt := 0,
     main := { temp := 300, temp_min := 299, temp_max := 301, humidity := 50 },
     weather := [{ main := "Clear", description := "clear sky" }],
     wind := none }]

/-- Decidable equality on `Except`, so results can be compared by `decide`. -/
instance {ε α : Type} [DecidableEq ε] [DecidableEq α] : DecidableEq (Except ε α) := fun x y =>
  match x, y with
  | .ok a, .ok b =>
    if h : a = b then isTrue (by rw [h]) else isFalse (fun hh => h (Except.ok.inj hh))
  | .error a, .error b =>
    if h : a = b then isTrue (by rw [h]) else isFalse (fun hh => h (Except.error.inj hh))
  | .ok _, .error _ => isFalse (fun hh => Except.noConfusion hh)
  | .error _, .ok _ => isFalse (fun hh => Except.noConfusion hh)

/-- C7: for every Kelvin value `k ≥ 0`, `kelvin_to_celsius` succeeds with
`celsius = k - 273.15` and `kelvin = k`; for every `k < 0` it fails with
`ValidationError`. -/
theorem kelvin_to_celsius_spec (k : ℚ) :
    (0 ≤ k → ∃ r, kelvin_to_celsius k = .ok r ∧ r.celsius = k - 273.15 ∧ r.kelvin = k) ∧
    (k < 0 → kelvin_to_celsius k =
      .error (.validationError "Temperature cannot be below absolute zero (0K)")) := by
  constructor
  · intro h
    refine ⟨⟨k, k - 273.15, fmt1 (k - 273.15) ++ "°C"⟩, ?_, rfl, rfl⟩
    simp only [kelvin_to_celsius, if_neg (not_lt.mpr h)]
  · intro h
    simp only [kelvin_to_celsius, if_pos h]

/-- Witness for C7 at `k = 300` and `k = -1`. -/
theorem kelvin_to_celsius_spec_witness :
    (∃ r, kelvin_to_celsius 300 = .ok r ∧ r.celsius = 300 - 273.15 ∧ r.kelvin = 300) ∧
    kelvin_to_celsius (-1) =
      .error (.validationError "Temperature cannot be below absolute zero (0K)") :=
  ⟨(kelvin_to_celsius_spec 300).1 (by norm_num),
   (kelvin_to_celsius_spec (-1)).2 (by norm_num)⟩

/-- C6: an empty or whitespace-only city makes both `get_weather` and
`get_forecast` fail with `ValidationError` and issue zero HTTP requests;
an out-of-range day count makes `get_forecast` fail with `ValidationError`
and issue zero HTTP requests. -/
theorem validation_before_network (apiKey : Option String) (lang : String)
    (transport : Transport) (city : String) (days : ℤ) :
    (strippedEmpty city = true →
      get_weather apiKey lang transport city =
        (.error (.validationError "City name must be a non-empty string"), 0) ∧
      get_forecast apiKey lang transport city days =
        (.error (.validationError "City name must be a non-empty string"), 0)) ∧
    ((days < 1 ∨ 5 < days) →
      ∃ msg, get_forecast apiKey lang transport city days =
        (.error (.validationError msg), 0)) := by
  constructor
  · intro h
    exact ⟨by simp only [get_weather, if_pos h],
           by simp only [get_forecast, if_pos h]⟩
  · intro h
    by_cases hc : strippedEmpty city = true
    · exact ⟨"City name must be a non-empty string", by simp only [get_forecast, if_pos hc]⟩
    · exact ⟨"Days must be an integer between 1 and 5",
        by simp only [get_forecast, if_neg hc, if_pos h]⟩

/-- Witness for C6: whitespace-only city, and `days = 6` for a valid city. -/
theorem validation_before_network_witness :
    (get_weather none "en" okTransport "   " =
        (.error (.validationError "City name must be a non-empty string"), 0) ∧
      get_forecast none "en" okTransport "   " 3 =
        (.error (.validationError "City name must be a non-empty string"), 0)) ∧
    (∃ msg, get_forecast (some "key") "en" okTransport "London" 6 =
        (.error (.validationError msg), 0)) :=
  ⟨(validation_before_network none "en" okTransport "   " 3).1 (by decide),
   (validation_before_network (some "key") "en" okTransport "London" 6).2 (by decide)⟩

/-- C3 counterexample: the missing-credential failure is raised as
`WeatherAPIError(401, "API key not configured")` — the *same* exception
class `_make_api_call` raises for a provider rejection (non-200 response),
not a distinct configuration-failure type. -/
theorem config_failure_not_distinct_cex :
    (get_weather none "en" t404 "London").1 =
      .error (.weatherAPIError 401 "API key not configured") ∧
    (get_weather (some "secret") "en" t404 "London").1 =
      .error (.weatherAPIError 404 "city not found") ∧
    PyError.kind (.weatherAPIError 401 "API key not configured") =
      PyError.kind (.weatherAPIError 404 "city not found") := by
  refine ⟨?_, ?_, rfl⟩ <;> decide

/-- C3 as amended: when the credential is missing (`None` or empty), both
fetchers do fail fast — `WeatherAPIError(401, "API key not configured")`
with zero HTTP requests issued — but with the same exception type used for
provider rejections. -/
theorem config_failure_fails_fast (apiKey : Option String) (lang : String)
    (transport : Transport) (city : String) (days : ℤ)
    (hk : apiKey = none ∨ apiKey = some "")
    (hc : strippedEmpty city = false) (h1 : 1 ≤ days) (h5 : days ≤ 5) :
    get_weather apiKey lang transport city =
      (.error (.weatherAPIError 401 "API key not configured"), 0) ∧
    get_forecast apiKey lang transport city days =
      (.error (.weatherAPIError 401 "API key not configured"), 0) := by
  have hc' : ¬ (strippedEmpty city = true) := by simp [hc]
  have hd : ¬ (days < 1 ∨ 5 < days) := by omega
  rcases hk with hk | hk <;> subst hk <;>
    exact ⟨by simp [get_weather, _make_api_call, hc'],
           by simp [get_forecast, _make_api_call, hc', hd]⟩

/-- Witness for C3's amended theorem: missing key, valid city, `days = 3`. -/
theorem config_failure_fails_fast_witness :
    get_weather none "en" okTransport "London" =
      (.error (.weatherAPIError 401 "API key not configured"), 0) ∧
    get_forecast none "en" okTransport "London" 3 =
      (.error (.weatherAPIError 401 "API key not configured"), 0) :=
  config_failure_fails_fast none "en" okTransport "London" 3
    (Or.inl rfl) (by decide) (by decide) (by decide)

/-- C9: `format_forecast` is deterministic — in a fixed environment (the
timezone and locale availability the code reads ambiently), two runs on
the same payload and day count produce the same output. -/
theorem format_forecast_deterministic (env : FmtEnv) (d : ForecastData) (days : ℤ)
    (s₁ s₂ : Except PyError String)
    (h₁ : format_forecast env d days = s₁) (h₂ : format_forecast env d days = s₂) :
    s₁ = s₂ := by
  rw [← h₁, ← h₂]

/-- Witness for C9 on a concrete payload and environment. -/
theorem format_forecast_deterministic_witness :
    format_forecast ⟨3600, true⟩ sampleForecast 5 =
      format_forecast ⟨3600, true⟩ sampleForecast 5 :=
  format_forecast_deterministic ⟨3600, true⟩ sampleForecast 5 _ _ rfl rfl

/-- C1 (code bug): on a payload whose point has an empty `weather` array the
formatter body raises, and `format_forecast` then raises
`NameError("logger")` from its own `except` clause (utils.py never defines
`logger`) instead of returning the fixed user-facing error string. -/
theorem format_forecast_error_propagates :
    format_forecast ⟨0, true⟩ failingForecast 5 = .error (.nameError "logger") ∧
    (Except.error (PyError.nameError "logger") : Except PyError String) ≠
      .ok formatErrorString := by
  exact ⟨by decide, fun h => Except.noConfusion h⟩

/-- Reading an in-range index of a mapped list through `getD` applies the
function to the underlying element, whatever the defaults. -/
theorem getD_map_lt {α β : Type} (f : α → β) (l : List α) (j : ℕ) (d : α) (d' : β)
    (hj : j < l.length) : (l.map f).getD j d' = f (l.getD j d) := by
  simp [List.getD_eq_getElem?_getD, List.getElem?_map, List.getElem?_eq_getElem hj]

/-- The pairwise differences of a list against itself shifted by one,
expressed as a map over the index range. -/
theorem zipWith_sub_eq_range_map (ts : List ℚ) (t : ℚ) :
    List.zipWith (fun a b => a - b) ts (t :: ts) =
      (List.range ts.length).map (fun i => ts.getD i 0 - (t :: ts).getD i 0) := by
  induction ts generalizing t with
  | nil => rfl
  | cons a ts' ih =>
    have hstep : List.zipWith (fun x y => x - y) (a :: ts') (t :: a :: ts') =
        (a - t) :: List.zipWith (fun x y => x - y) ts' (a :: ts') := rfl
    rw [hstep, ih a, List.length_cons, List.range_succ_eq_map, List.map_cons, List.map_map]
    congr 1

/-- The function `calculate_changes` produces exactly the delta list described by the
claim: 0 first, then consecutive differences. -/
theorem calculate_changes_eq_specDeltas (temps : List ℚ) :
    calculate_changes temps = specDeltas temps := by
  match temps with
  | [] => rfl
  | t :: ts =>
    show (List.range (t :: ts).length).map _ = (0 : ℚ) :: _
    rw [List.length_cons, List.range_succ_eq_map, List.map_cons, List.map_map,
      zipWith_sub_eq_range_map ts t]
    congr 1
    apply List.map_congr_left
    intro i _
    simp [Function.comp, Nat.succ_pos, Nat.add_sub_cancel, List.getD_cons_succ]

/-- The function `categorize_trend` in closed form: empty is "stable"; otherwise compare
the count of significant changes against 20% of the length, then the sign
of the sum. -/
theorem categorize_trend_characterization (changes : List ℚ) :
    categorize_trend changes =
      (if changes = [] then "stable"
       else if ((changes.countP (fun d => 1 < |d|) : ℚ)) ≤ 0.2 * changes.length then "stable"
       else if 0 < changes.sum then "warming" else "cooling") := by
  cases changes with
  | nil => rfl
  | cons c cs =>
    rw [if_neg (List.cons_ne_nil c cs)]
    simp only [categorize_trend, List.countP_eq_length_filter, List.sum_eq_foldl]
    rw [show (((c :: cs).length : ℕ) : ℚ) * 0.2 = 0.2 * (((c :: cs).length : ℕ) : ℚ) from
      mul_comm _ _]

/-- C5: the trend label computed by the code on any temperature sequence is
exactly the claim's formula (`specTrend`): delta list with leading 0,
`significant` = count of deltas with absolute value above 1, "stable" when
`significant ≤ 0.2 × len(deltas)`, else "warming"/"cooling" by the sign of
the delta sum; empty input is "stable". -/
theorem categorize_trend_matches_claim (temps : List ℚ) :
    categorize_trend (calculate_changes temps) = specTrend temps := by
  rw [calculate_changes_eq_specDeltas, categorize_trend_characterization]
  rfl

/-- C8: computing consecutive deltas on the Celsius-converted sequence gives
the same delta list as on the raw Kelvin sequence, hence the identical
trend classification. -/
theorem deltas_unit_independent (temps : List ℚ) :
    calculate_changes (temps.map k_to_c) = calculate_changes temps ∧
    categorize_trend (calculate_changes (temps.map k_to_c)) =
      categorize_trend (calculate_changes temps) := by
  have h : calculate_changes (temps.map k_to_c) = calculate_changes temps := by
    unfold calculate_changes
    rw [List.length_map]
    apply List.map_congr_left
    intro i hi
    rw [List.mem_range] at hi
    by_cases h0 : 0 < i
    · rw [if_pos h0, if_pos h0, getD_map_lt k_to_c temps i 0 0 hi,
        getD_map_lt k_to_c temps (i - 1) 0 0 (by omega)]
      unfold k_to_c
      ring
    · rw [if_neg h0, if_neg h0]
  exact ⟨h, by rw [h]⟩

/-- The one-decimal rendering of 0 is "0.0". -/
theorem fmt1_zero : fmt1 0 = "0.0" := by
  have hf : ⌊(0 : ℚ) * 10⌋ = 0 := by norm_num
  have hr : roundHalfEven ((0 : ℚ) * 10) = 0 := by
    unfold roundHalfEven
    rw [hf]
    norm_num
  unfold fmt1
  rw [hr]
  rfl

/-- The one-decimal rendering of −273.15 (round half to even on the exact
rational). -/
theorem fmt1_neg273 : fmt1 (-273.15) = "-273.2" := by
  have hf : ⌊(-273.15 : ℚ) * 10⌋ = -2732 := by
    rw [Int.floor_eq_iff]
    norm_num
  have hr : roundHalfEven ((-273.15 : ℚ) * 10) = -2732 := by
    unfold roundHalfEven
    rw [hf]
    norm_num
  unfold fmt1
  rw [hr]
  rfl

/-- C2 counterexample: on the empty series the average-temperature field of
the report is not zero.  The code takes the average of the *Kelvin* list —
0.0 for the empty list — and converts it, so the report displays
−273.15 °C (rendered "-273.2°C" under exact half-even rounding). -/
theorem analyze_data_empty_average_cex :
    avgTempCelsius emptySeries = -273.15 ∧
    avgTempCelsius emptySeries ≠ 0 ∧
    (analyze_data 0 "X" "now" emptySeries).map (fun r => r.average_temp) = .ok "-273.2°C" ∧
    ("-273.2°C" : String) ≠ "0.0°C" := by
  have havg : avgTempCelsius emptySeries = -273.15 := by
    norm_num [avgTempCelsius, average, extract_temperatures, emptySeries, k_to_c]
  refine ⟨havg, by rw [havg]; norm_num, ?_, by decide⟩
  show Except.ok (fmt1 (avgTempCelsius emptySeries) ++ "°C") = _
  rw [havg, fmt1_neg273]
  decide

/-- C2 as amended: on an empty point list the report has trend "stable",
minimum, maximum and range temperature all zero ("0.0°C"), dominant
condition "Unknown" (the dominant-condition computation yields
`("Unknown", 0)`), empty frequency mapping and daily averages, zero data
points — but its average temperature is −273.15 °C (the empty Kelvin
average 0 converted to Celsius), not zero. -/
theorem analyze_data_empty_series (tz : ℤ) (city nowIso : String) (cityObj : Option CityInfo) :
    ∃ r, analyze_data tz city nowIso ⟨cityObj, some []⟩ = .ok r ∧
      r.trend = "stable" ∧
      r.min_temp = "0.0°C" ∧ r.max_temp = "0.0°C" ∧ r.temp_range = "0.0°C" ∧
      r.dominant_condition = "Unknown" ∧
      dominant_condition r.condition_frequency = ("Unknown", 0) ∧
      r.condition_frequency = [] ∧
      r.daily_averages = [] ∧
      r.data_points = 0 ∧
      avgTempCelsius ⟨cityObj, some []⟩ = -273.15 ∧
      r.average_temp = fmt1 (-273.15) ++ "°C" := by
  have havg : avgTempCelsius ⟨cityObj, some []⟩ = -273.15 := by
    norm_num [avgTempCelsius, average, extract_temperatures, k_to_c]
  refine ⟨_, rfl, rfl, ?_, ?_, ?_, rfl, rfl, rfl, rfl, rfl, havg, ?_⟩
  · show fmt1 0 ++ "°C" = "0.0°C"
    rw [fmt1_zero]
    decide
  · show fmt1 0 ++ "°C" = "0.0°C"
    rw [fmt1_zero]
    decide
  · show fmt1 0 ++ "°C" = "0.0°C"
    rw [fmt1_zero]
    decide
  · show fmt1 (avgTempCelsius ⟨cityObj, some []⟩) ++ "°C" = fmt1 (-273.15) ++ "°C"
    rw [havg]

/-- Membership in the first-seen key fold, generalized over the
accumulator. -/
theorem mem_firstSeenKeys_aux (tz : ℤ) (l : List ForecastItem) (acc : List String) (k : String) :
    k ∈ l.foldl (fun ks it => if dateKey tz it.dt ∈ ks then ks else ks ++ [dateKey tz it.dt]) acc ↔
      k ∈ acc ∨ ∃ it ∈ l, dateKey tz it.dt = k := by
  induction l generalizing acc with
  | nil => simp
  | cons a l' ih =>
    rw [List.foldl_cons, ih]
    constructor
    · rintro (h | h)
      · by_cases ha : dateKey tz a.dt ∈ acc
        · rw [if_pos ha] at h
          exact Or.inl h
        · rw [if_neg ha] at h
          rcases List.mem_append.mp h with h | h
          · exact Or.inl h
          · exact Or.inr ⟨a, List.mem_cons_self a l', (List.mem_singleton.mp h).symm⟩
      · rcases h with ⟨it, hit, hk⟩
        exact Or.inr ⟨it, List.mem_cons_of_mem a hit, hk⟩
    · rintro (h | ⟨it, hit, hk⟩)
      · left
        by_cases ha : dateKey tz a.dt ∈ acc
        · rwa [if_pos ha]
        · rw [if_neg ha]
          exact List.mem_append_left _ h
      · rcases List.mem_cons.mp hit with rfl | hit'
        · left
          by_cases ha : dateKey tz it.dt ∈ acc
          · rw [if_pos ha]
            rwa [← hk]
          · rw [if_neg ha]
            exact List.mem_append_right _ (List.mem_singleton.mpr hk.symm)
        · exact Or.inr ⟨it, hit', hk⟩

/-- A key appears among the first-seen keys exactly when some point carries
that calendar date. -/
theorem mem_firstSeenKeys (tz : ℤ) (l : List ForecastItem) (k : String) :
    k ∈ firstSeenKeys tz l ↔ ∃ it ∈ l, dateKey tz it.dt = k := by
  rw [firstSeenKeys, mem_firstSeenKeys_aux]
  simp

/-- Appending a point extends the first-seen keys exactly when its date is
new. -/
theorem firstSeenKeys_concat (tz : ℤ) (l : List ForecastItem) (x : ForecastItem) :
    firstSeenKeys tz (l ++ [x]) =
      if dateKey tz x.dt ∈ firstSeenKeys tz l then firstSeenKeys tz l
      else firstSeenKeys tz l ++ [dateKey tz x.dt] := by
  unfold firstSeenKeys
  rw [List.foldl_concat]

/-- No point of `l` carries a date that is not among the first-seen keys. -/
theorem filter_dateKey_eq_nil (tz : ℤ) (l : List ForecastItem) (k : String)
    (h : k ∉ firstSeenKeys tz l) :
    l.filter (fun it => dateKey tz it.dt = k) = [] := by
  rw [List.filter_eq_nil_iff]
  intro it hit hk
  exact h ((mem_firstSeenKeys tz l k).mpr ⟨it, hit, of_decide_eq_true hk⟩)

/-- Adding a point whose date already has a bucket appends it to that bucket
and leaves the grouped shape intact. -/
theorem bucketAdd_grouped_mem (tz : ℤ) (l : List ForecastItem) (x : ForecastItem)
    (ks : List String) (hmem : dateKey tz x.dt ∈ ks) :
    bucketAdd tz (ks.map (fun k => (k, l.filter (fun it => dateKey tz it.dt = k)))) x =
      ks.map (fun k => (k, (l ++ [x]).filter (fun it => dateKey tz it.dt = k))) := by
  unfold bucketAdd
  rw [if_pos ?hany]
  case hany =>
    rw [List.any_eq_true]
    exact ⟨_, List.mem_map.mpr ⟨dateKey tz x.dt, hmem, rfl⟩, by simp⟩
  rw [List.map_map]
  apply List.map_congr_left
  intro k' _
  by_cases hk' : k' = dateKey tz x.dt
  · subst hk'
    simp [List.filter_append]
  · have hx : ¬ (dateKey tz x.dt = k') := fun h => hk' h.symm
    simp [List.filter_append, hk', hx]

/-- Adding a point with an unseen date appends a fresh singleton bucket and
leaves the grouped shape intact. -/
theorem bucketAdd_grouped_not_mem (tz : ℤ) (l : List ForecastItem) (x : ForecastItem)
    (ks : List String) (hmem : dateKey tz x.dt ∉ ks)
    (hfil : l.filter (fun it => dateKey tz it.dt = dateKey tz x.dt) = []) :
    bucketAdd tz (ks.map (fun k => (k, l.filter (fun it => dateKey tz it.dt = k)))) x =
      (ks ++ [dateKey tz x.dt]).map
        (fun k => (k, (l ++ [x]).filter (fun it => dateKey tz it.dt = k))) := by
  unfold bucketAdd
  rw [if_neg ?hany]
  case hany =>
    intro h
    rcases List.any_eq_true.mp h with ⟨e, he, hke⟩
    rcases List.mem_map.mp he with ⟨k', hk', rfl⟩
    exact hmem (of_decide_eq_true hke ▸ hk')
  rw [List.map_append]
  congr 1
  · apply List.map_congr_left
    intro k' hk'
    have hx : ¬ (dateKey tz x.dt = k') := fun h => hmem (h ▸ hk')
    simp [List.filter_append, hx]
  · simp [List.filter_append, hfil]

/-- The `days_data` fold groups the points by calendar date: one bucket per
first-seen date key, in first-seen order, holding exactly the points of
that date in their original order. -/
theorem days_data_eq_groupBy (tz : ℤ) (l : List ForecastItem) :
    days_data tz l = (firstSeenKeys tz l).map
      (fun k => (k, l.filter (fun it => dateKey tz it.dt = k))) := by
  induction l using List.reverseRecOn with
  | nil => rfl
  | append_singleton l x ih =>
    have hdd : days_data tz (l ++ [x]) = bucketAdd tz (days_data tz l) x := by
      unfold days_data
      rw [List.foldl_concat]
    rw [hdd, ih, firstSeenKeys_concat]
    by_cases hmem : dateKey tz x.dt ∈ firstSeenKeys tz l
    · rw [if_pos hmem]
      exact bucketAdd_grouped_mem tz l x (firstSeenKeys tz l) hmem
    · rw [if_neg hmem]
      exact bucketAdd_grouped_not_mem tz l x (firstSeenKeys tz l) hmem
        (filter_dateKey_eq_nil tz l _ hmem)

/-- When every point's `weather` array is nonempty, reading all condition
categories succeeds and yields the per-point heads. -/
theorem mapM_condOf (l : List ForecastItem) (hw : ∀ it ∈ l, it.weather ≠ []) :
    l.mapM condOf = .ok (l.map condHead) := by
  induction l with
  | nil => rfl
  | cons a l' ih =>
    have ha := hw a (List.mem_cons_self a l')
    have ih' := ih (fun it hit => hw it (List.mem_cons_of_mem a hit))
    cases h : a.weather with
    | nil => exact absurd h ha
    | cons w ws =>
      rw [List.mapM_cons, ih']
      simp only [condOf, condHead, h, List.map_cons]
      rfl

/-- Under the nonempty-`weather` hypothesis `analyze_data` succeeds, and the
report's frequency mapping, point count and daily averages have the shapes
the pipeline computes. -/
theorem analyze_data_ok_of_weather (tz : ℤ) (city nowIso : String)
    (cityObj : Option CityInfo) (l : List ForecastItem)
    (hw : ∀ it ∈ l, it.weather ≠ []) :
    ∃ r, analyze_data tz city nowIso ⟨cityObj, some l⟩ = .ok r ∧
      r.condition_frequency = (l.map condHead).foldl countUpdate [] ∧
      r.data_points = l.length ∧
      r.daily_averages = (days_data tz l).map
        (fun b => { date := b.1, avg_temp := average (b.2.map (fun it => it.main.temp)) }) := by
  have hcf : condition_frequency ⟨cityObj, some l⟩ =
      .ok ((l.map condHead).foldl countUpdate []) := by
    show (do
      let conditions ← l.mapM condOf
      return conditions.foldl countUpdate []) =
        Except.ok ((l.map condHead).foldl countUpdate [])
    rw [mapM_condOf l hw]
    rfl
  refine ⟨_, by unfold analyze_data; rw [hcf]; rfl, ?_, ?_, ?_⟩
  · rfl
  · show (extract_temperatures ⟨cityObj, some l⟩).length = l.length
    simp [extract_temperatures]
  · rfl

/-- C4 counterexample: the daily-average entry stores the bucket's mean of
the *raw Kelvin* temperatures.  For a single point of 300 K the report
carries 300, not its Celsius conversion 26.85. -/
theorem daily_averages_not_celsius_cex :
    (analyze_data 0 "X" "now" ⟨none, some singleClearList⟩).map (fun r => r.daily_averages) =
      .ok [{ date := "1970-01-01", avg_temp := 300 }] ∧
    (300 : ℚ) ≠ k_to_c 300 := by
  constructor
  · have havg : average [(300 : ℚ)] = 300 := by norm_num [average]
    show Except.ok [({ date := dateKey 0 0, avg_temp := average [(300 : ℚ)] } : DailyAvg)] = _
    rw [havg]
    decide
  · norm_num [k_to_c]

/-- C4 as amended: the report buckets points by local calendar date
(`YYYY-MM-DD` keys) preserving first-seen bucket order, and each entry
pairs the date key with the arithmetic mean of that bucket's *raw Kelvin*
temperatures — no Celsius conversion is applied to the daily averages. -/
theorem daily_averages_grouping (tz : ℤ) (city nowIso : String)
    (cityObj : Option CityInfo) (l : List ForecastItem)
    (hw : ∀ it ∈ l, it.weather ≠ []) :
    ∃ r, analyze_data tz city nowIso ⟨cityObj, some l⟩ = .ok r ∧
      r.daily_averages = specDailyAvgs tz l := by
  obtain ⟨r, hr, _, _, hdaily⟩ := analyze_data_ok_of_weather tz city nowIso cityObj l hw
  refine ⟨r, hr, ?_⟩
  rw [hdaily, days_data_eq_groupBy, List.map_map]
  rfl

/-- Witness for C4's amended theorem on a one-point payload. -/
theorem daily_averages_grouping_witness :
    ∃ r, analyze_data 0 "X" "now" ⟨none, some singleClearList⟩ = .ok r ∧
      r.daily_averages = specDailyAvgs 0 singleClearList :=
  daily_averages_grouping 0 "X" "now" none singleClearList (by decide)

/-- Updating a key absent from the head entry skips past it. -/
theorem countUpdate_cons_ne (e : String × Nat) (acc : List (String × Nat)) (c : String)
    (he : e.1 ≠ c) : countUpdate (e :: acc) c = e :: countUpdate acc c := by
  unfold countUpdate
  rw [List.any_cons, decide_eq_false he, Bool.false_or]
  by_cases h : acc.any (fun x => x.1 = c) = true
  · rw [if_pos h, if_pos h, List.map_cons, if_neg he]
  · rw [if_neg h, if_neg h, List.cons_append]

/-- One `countUpdate` step raises the total count by exactly one, provided
the keys are distinct (as dictionary keys are). -/
theorem countUpdate_sum (acc : List (String × Nat)) (c : String)
    (h : (acc.map Prod.fst).Nodup) :
    sumCounts (countUpdate acc c) = sumCounts acc + 1 := by
  induction acc with
  | nil => rfl
  | cons e acc' ih =>
    rw [List.map_cons, List.nodup_cons] at h
    obtain ⟨hne, hnd⟩ := h
    by_cases he : e.1 = c
    · have hany : (e :: acc').any (fun x => x.1 = c) = true := by
        rw [List.any_cons]
        simp [he]
      unfold countUpdate
      rw [hany, if_pos rfl, List.map_cons, if_pos he]
      have hc : c ∉ acc'.map Prod.fst := he ▸ hne
      have hcons : acc'.map (fun x => if x.1 = c then (x.1, x.2 + 1) else x) = acc' := by
        conv_rhs => rw [← List.map_id acc']
        apply List.map_congr_left
        intro x hx
        have hxne : ¬ (x.1 = c) := fun hxc => hc (hxc ▸ List.mem_map_of_mem Prod.fst hx)
        simp [hxne]
      rw [hcons]
      simp [sumCounts]
      omega
    · rw [countUpdate_cons_ne e acc' c he]
      have hrec := ih hnd
      simp only [sumCounts, List.map_cons, List.sum_cons] at hrec ⊢
      omega

/-- Counting updates preserve distinctness of the keys. -/
theorem countUpdate_keys_nodup (acc : List (String × Nat)) (c : String)
    (h : (acc.map Prod.fst).Nodup) : ((countUpdate acc c).map Prod.fst).Nodup := by
  unfold countUpdate
  by_cases ha : acc.any (fun e => e.1 = c) = true
  · rw [if_pos ha, List.map_map]
    have heq : acc.map (Prod.fst ∘ fun e => if e.1 = c then (e.1, e.2 + 1) else e) =
        acc.map Prod.fst := by
      apply List.map_congr_left
      intro x _
      by_cases hx : x.1 = c <;> simp [hx]
    rwa [heq]
  · rw [if_neg ha, List.map_append]
    have hc : c ∉ acc.map Prod.fst := by
      intro hmem
      rcases List.mem_map.mp hmem with ⟨e, he, hfst⟩
      exact ha (List.any_eq_true.mpr ⟨e, he, by simp [hfst]⟩)
    rw [List.nodup_append]
    exact ⟨h, List.nodup_singleton c, by simp [List.disjoint_singleton, hc]⟩

/-- Counting updates keep every count at least 1. -/
theorem countUpdate_pos (acc : List (String × Nat)) (c : String)
    (h : ∀ e ∈ acc, 1 ≤ e.2) : ∀ e ∈ countUpdate acc c, 1 ≤ e.2 := by
  unfold countUpdate
  intro e he
  by_cases ha : acc.any (fun x => x.1 = c) = true
  · rw [if_pos ha] at he
    rcases List.mem_map.mp he with ⟨x, hx, rfl⟩
    by_cases hxc : x.1 = c
    · rw [if_pos hxc]
      exact Nat.le_add_left 1 x.2
    · rw [if_neg hxc]
      exact h x hx
  · rw [if_neg ha] at he
    rcases List.mem_append.mp he with he | he
    · exact h e he
    · rw [List.mem_singleton.mp he]

/-- The frequency fold: total count equals the number of processed
conditions, keys stay distinct, and every count stays at least 1. -/
theorem foldl_countUpdate_invariants (cs : List String) (acc : List (String × Nat))
    (hnd : (acc.map Prod.fst).Nodup) (hpos : ∀ e ∈ acc, 1 ≤ e.2) :
    sumCounts (cs.foldl countUpdate acc) = sumCounts acc + cs.length ∧
    ((cs.foldl countUpdate acc).map Prod.fst).Nodup ∧
    ∀ e ∈ cs.foldl countUpdate acc, 1 ≤ e.2 := by
  induction cs generalizing acc with
  | nil => exact ⟨rfl, hnd, hpos⟩
  | cons c cs' ih =>
    rw [List.foldl_cons]
    obtain ⟨h1, h2, h3⟩ := ih (countUpdate acc c) (countUpdate_keys_nodup acc c hnd)
      (countUpdate_pos acc c hpos)
    refine ⟨?_, h2, h3⟩
    rw [h1, countUpdate_sum acc c hnd, List.length_cons]
    omega

/-- C10: when every point carries both a temperature (structural in the
embedding) and a condition category (nonempty `weather`), the frequency
mapping counts each point exactly once — the counts sum to the reported
`data_points`, which is the number of points, and every count is at
least 1. -/
theorem condition_frequency_conservation (tz : ℤ) (city nowIso : String)
    (cityObj : Option CityInfo) (l : List ForecastItem)
    (hw : ∀ it ∈ l, it.weather ≠ []) :
    ∃ r, analyze_data tz city nowIso ⟨cityObj, some l⟩ = .ok r ∧
      sumCounts r.condition_frequency = r.data_points ∧
      r.data_points = l.length ∧
      ∀ e ∈ r.condition_frequency, 1 ≤ e.2 := by
  obtain ⟨r, hr, hcf, hdp, _⟩ := analyze_data_ok_of_weather tz city nowIso cityObj l hw
  obtain ⟨h1, _, h3⟩ := foldl_countUpdate_invariants (l.map condHead) []
    (by simp) (by simp)
  refine ⟨r, hr, ?_, hdp, ?_⟩
  · rw [hcf, hdp, h1]
    simp [sumCounts]
  · rw [hcf]
    exact h3

/-- Witness for C10 on a one-point payload. -/
theorem condition_frequency_conservation_witness :
    ∃ r, analyze_data 0 "X" "now" ⟨none, some singleClearList⟩ = .ok r ∧
      sumCounts r.condition_frequency = r.data_points ∧
      r.data_points = singleClearList.length ∧
      ∀ e ∈ r.condition_frequency, 1 ≤ e.2 :=
  condition_frequency_conservation 0 "X" "now" none singleClearList (by decide)
